import Mathlib

/-!
Verification of the V7 reference-resolution pipeline of `backend/hipdam`
(`reference_profiler.py`, `schemas/reference_schemas.py`, `utils/llm_parser.py`).

The pipeline stages are shallowly embedded as Lean functions:
* `prepareInputsV7`   — `_prepare_inputs_v7` (InputPreparer)
* `mapTargets`        — the batching/failure skeleton of `_map_targets` (Mapper)
* `judgeStage`        — the batching/merge/failure skeleton of `_judge_references` (Judge)
* `protocolValidate`  — `_protocol_validate` (ProtocolValidator)
* `formatOutputV7`    — the `reference_map` component of `_format_output_v7`

Oracle (LLM) calls are abstracted as an explicit function argument: a batch
either fails (`Except.error`, covering transport failure and unparsable
responses, both of which land in the same Python `except` block) or yields the
parsed item list (`Except.ok`).  All machine-side logic is embedded faithfully
from the source.
-/

namespace Coma

/-! ### Python string helpers

`pyLower`/`pyStrip` model `str.lower()`/`str.strip()` (character-wise ASCII
lowering and whitespace trimming — the inputs compared here are plain text).
`isSubstrOf a b` models Python `a in b` (contiguous substring). -/

def pyLower (s : String) : String := ⟨s.data.map Char.toLower⟩

/-- Strip leading and trailing whitespace (Python `str.strip()`). -/
def stripChars (l : List Char) : List Char :=
  ((l.dropWhile Char.isWhitespace).reverse.dropWhile Char.isWhitespace).reverse

def pyStrip (s : String) : String := ⟨stripChars s.data⟩

/-- Embeds `v.lower().strip()` as performed by the duplicate check. -/
def pyNorm (s : String) : String := pyStrip (pyLower s)

/-- Tests that `needle` occurs contiguously inside the character list. -/
def charsInfixOf (needle : List Char) : List Char → Bool
  | [] => needle.isEmpty
  | c :: rest => needle.isPrefixOf (c :: rest) || charsInfixOf needle rest

/-- Python `a in b` on strings: `a` occurs contiguously inside `b`. -/
def isSubstrOf (a b : String) : Bool := charsInfixOf a.data b.data

/-- Python `s[:n]`. -/
def strTake (s : String) (n : Nat) : String := ⟨s.data.take n⟩

/-- Python truthiness of an optional string (`None`, a missing key and `""`
are all falsy).  `none` stands for "key absent or value null". -/
def strFalsy : Option String → Bool
  | none => true
  | some s => s == ""

/-- Python `dict.get(key, default)` for string-valued keys. -/
def getStr (v : Option String) (d : String) : String := v.getD d

/-! ### ProtocolValidator (`_protocol_validate`, reference_profiler.py 611-726)

The validator receives the Judge-stage dicts.  `InRec` records the result of
every `.get` the validator performs on such a dict; `none` means the key is
absent (or holds `None`).  `is_self_reference` is present on Judge output but
the validator never reads it — the field is carried here to make that fact
checkable. -/

structure InRec where
  source_id : Option String := none
  source_header : Option String := none
  source_verbatim : Option String := none
  target_id : Option String := none
  mapper_verdict : Option String := none
  judge_verdict : Option String := none
  reasoning : Option String := none
  is_self_reference : Option Bool := none
deriving DecidableEq, Repr

/-- The `final_ref` dict built at reference_profiler.py 700-713.  Note the
key rename: the input's `source_verbatim` is stored under `source_context`,
and no `source_verbatim` key exists on the output. -/
structure FinalRef where
  source_id : String
  source_header : String
  source_context : String
  target_id : String
  target_header : String
  target_type : String
  is_self_reference : Bool
  is_duplicate : Bool
  mapper_verdict : String
  judge_verdict : String
  system_verdict : String
  reasoning : String
deriving DecidableEq, Repr

/-- Loop state of `_protocol_validate`: `seen_pairs` and the growing
`final_refs` list (stats are not modelled; no claim mentions them). -/
structure PVState where
  seen : List (String × String)
  out : List FinalRef
deriving DecidableEq, Repr

/-- The `source_id` of a processed record. -/
def pvSid (ref : InRec) : String := getStr ref.source_id ""

/-- Embeds `if not target_id: target_id = "UNKNOWN"` — the coerced target id. -/
def pvTid (ref : InRec) : String :=
  if strFalsy ref.target_id then "UNKNOWN" else getStr ref.target_id ""

/-- The judge verdict after the coercion step (`ref["judge_verdict"] = "REJECT"`
when the target is missing, else `ref.get("judge_verdict", "UNKNOWN")`). -/
def pvJv (ref : InRec) : String :=
  if strFalsy ref.target_id then "REJECT" else getStr ref.judge_verdict "UNKNOWN"

/-- The reasoning after the coercion step (a default message is attached
only when the target is missing and no reasoning is present). -/
def pvReasoning (ref : InRec) : String :=
  if strFalsy ref.target_id then
    (if strFalsy ref.reasoning then "Reference target could not be identified."
     else getStr ref.reasoning "")
  else getStr ref.reasoning ""

/-- Embeds `current_verbatim = ref.get("source_verbatim", "").lower().strip()`. -/
def pvCur (ref : InRec) : String := pyNorm (getStr ref.source_verbatim "")

/-- The per-`prev_ref` test of the duplicate loop: same `(source_id,
target_id)` pair, both normalized verbatims non-empty and one contained in
the other. -/
def pvDupPred (sid tid cur : String) (prev : FinalRef) : Bool :=
  prev.source_id == sid && prev.target_id == tid &&
  (cur != "" && pyNorm prev.source_context != "" &&
    (isSubstrOf cur (pyNorm prev.source_context) ||
     isSubstrOf (pyNorm prev.source_context) cur))

/-- CHECK 2: duplicate detection (reference_profiler.py 661-691).  Only a
pair already in `seen_pairs` (hence with `target_id != "UNKNOWN"`) is
checked against all previously emitted final refs; the `for`/`break` loop
computes exactly `any`. -/
def pvIsDup (st : PVState) (sid tid cur : String) : Bool :=
  if tid != "UNKNOWN" && st.seen.contains (sid, tid) then
    st.out.any (pvDupPred sid tid cur)
  else false

/-- The `seen_pairs` set after one iteration: a fresh non-`"UNKNOWN"` pair is added. -/
def pvSeenNext (st : PVState) (ref : InRec) : List (String × String) :=
  if pvTid ref != "UNKNOWN" && !st.seen.contains (pvSid ref, pvTid ref) then
    st.seen ++ [(pvSid ref, pvTid ref)]
  else st.seen

/-- The `final_ref` dict appended for one input record
(reference_profiler.py 700-713). -/
def pvFinalRef (st : PVState) (ref : InRec) : FinalRef :=
  { source_id := pvSid ref
    source_header := getStr ref.source_header ""
    source_context := getStr ref.source_verbatim ""
    target_id := pvTid ref
    target_header := ""
    target_type := "UNKNOWN"
    is_self_reference := pvSid ref == pvTid ref   -- CHECK 1: `source_id == target_id`
    is_duplicate := pvIsDup st (pvSid ref) (pvTid ref) (pvCur ref)
    mapper_verdict := getStr ref.mapper_verdict "UNKNOWN"
    judge_verdict := pvJv ref
    system_verdict := "ACCEPT"   -- `# Always ACCEPT - validator never rejects, only flags`
    reasoning := pvReasoning ref }

/-- One iteration of the `for ref in validated_refs` loop of
`_protocol_validate`: a record without `source_id` is skipped, every other
record is enriched and appended. -/
def pvStep (st : PVState) (ref : InRec) : PVState :=
  if strFalsy ref.source_id then st
  else { seen := pvSeenNext st ref, out := st.out ++ [pvFinalRef st ref] }

/-- Embeds `_protocol_validate`: the returned `final_refs` list. -/
def protocolValidate (refs : List InRec) : List FinalRef :=
  (refs.foldl pvStep ⟨[], []⟩).out

/-- Reading one of the validator's own output dicts back through the
validator's `.get` calls: every key of `final_ref` is present, and the
output carries no `source_verbatim` key (the verbatim was stored under
`source_context`), so that lookup yields `none`. -/
def finalToIn (f : FinalRef) : InRec :=
  { source_id := some f.source_id
    source_header := some f.source_header
    source_verbatim := none
    target_id := some f.target_id
    mapper_verdict := some f.mapper_verdict
    judge_verdict := some f.judge_verdict
    reasoning := some f.reasoning
    is_self_reference := some f.is_self_reference }

/-! ### OutputFormatter (`_format_output_v7`, reference_profiler.py 1308-1370)

Only the `reference_map` component of the returned dict is modelled; the
`stats`/`agent_trace`/`warnings` components are not mentioned by any claim.
`section_index` is an association list (the Python dict preserves insertion
order and has unique keys by construction). -/

/-- A value of the `section_index` dict built by `_prepare_inputs_v7`. -/
structure SectionEntry where
  id : String
  header : String
  text : String
  type : String
deriving DecidableEq, Repr

/-- An entry of the externally surfaced `reference_map`. -/
structure OutRef where
  source_id : String
  source_header : String
  source_context : String
  target_id : String
  target_header : String
  target_type : String
  reasoning : String
  mapper_verdict : String
  judge_verdict : String
  system_verdict : String
  is_self_reference : Bool
  is_duplicate : Bool
deriving DecidableEq, Repr

/-- First-match association lookup (`section_index.get(key, {})`). -/
def lookupIndex (idx : List (String × SectionEntry)) (k : String) : Option SectionEntry :=
  (idx.find? (fun p => p.1 == k)).map (·.2)

/-- The dict appended to `reference_map` for one surviving final ref
(reference_profiler.py 1334-1353). -/
def reshape (idx : List (String × SectionEntry)) (ref : FinalRef) : OutRef :=
  let meta := lookupIndex idx ref.target_id
  { source_id := ref.source_id
    source_header := ref.source_header
    source_context := ref.source_context
    target_id := ref.target_id
    target_header := match meta with | some m => m.header | none => ref.target_header
    target_type := match meta with | some m => m.type | none => ref.target_type
    reasoning := ref.reasoning
    mapper_verdict := ref.mapper_verdict
    judge_verdict := ref.judge_verdict
    system_verdict := ref.system_verdict
    is_self_reference := ref.is_self_reference
    is_duplicate := ref.is_duplicate }

/-- The `reference_map` built by `_format_output_v7`: records with
`system_verdict == "REJECT"` are skipped (`continue`), all others are
appended in input order. -/
def formatOutputV7 (finalRefs : List FinalRef) (idx : List (String × SectionEntry)) :
    List OutRef :=
  finalRefs.foldl
    (fun acc ref => if ref.system_verdict == "REJECT" then acc else acc ++ [reshape idx ref])
    []

/-! ### Batching

`batches = [l[i:i+SIZE] for i in range(0, len(l), SIZE)]` with SIZE = n+1
(the sizes used are 5, 20 and 3, all positive). -/

def chunkP (n : Nat) (l : List α) : List (List α) :=
  match l with
  | [] => []
  | x :: xs => (x :: xs.take n) :: chunkP n (xs.drop n)
termination_by l.length
decreasing_by
  simp only [List.length_drop, List.length_cons]
  omega

/-! ### Mapper (`_map_targets`, reference_profiler.py 966-1109)

Pydantic schemas from `schemas/reference_schemas.py`.  `mapper_verdict` has
Pydantic default `"REJECT"`. -/

structure ScannedRef where
  source_id : String
  source_header : String
  source_verbatim : String
deriving DecidableEq, Repr

structure MappedRef where
  source_id : String
  source_header : String
  source_verbatim : String
  target_id : Option String
  is_valid : Bool
  justification : String
  mapper_verdict : String := "REJECT"
deriving DecidableEq, Repr

/-- Pydantic validation of a `MappedReference` item
(`reference_schemas.py` 53-84): the `justification` length constraints
(`min_length=5, max_length=200`) and the `validate_target_consistency`
model validator.  A passing record is returned unchanged. -/
def mappedRefValidate (m : MappedRef) : Option MappedRef :=
  if m.justification.length < 5 || 200 < m.justification.length then none
  else if m.is_valid && strFalsy m.target_id then none        -- is_valid=True requires target_id
  else if !m.is_valid && !strFalsy m.target_id then none      -- is_valid=False should have target_id=null
  else some m

/-- Embeds `parse_llm_json_as_list(resp, MappedReference)`: keeps each item that
passes Pydantic validation and drops invalid items individually
(`llm_parser.py` 248-268). -/
def parseMappedList (items : List MappedRef) : List MappedRef :=
  items.filterMap mappedRefValidate

/-- The `except` branch of `process_mapper_batch` (reference_profiler.py
1060-1080): one invalid placeholder per input item,
`justification = f"Mapper failed: {str(e)[:100]}"`. -/
def mapperFailBatch (batch : List ScannedRef) (e : String) : List MappedRef :=
  batch.map (fun ref =>
    { source_id := ref.source_id
      source_header := ref.source_header
      source_verbatim := ref.source_verbatim
      target_id := none
      is_valid := false
      justification := "Mapper failed: " ++ strTake e 100 })

/-- One Mapper batch: the oracle either yields the parsed+validated
`MappedReference` list (`Except.ok`) or fails (`Except.error`, covering the
LLM call raising and `parse_llm_json_as_list` raising). -/
def processMapperBatch (oracle : List ScannedRef → Except String (List MappedRef))
    (batch : List ScannedRef) : List MappedRef :=
  match oracle batch with
  | .ok rs => rs
  | .error e => mapperFailBatch batch e

/-- Embeds `_map_targets`: batches of `BATCH_SIZE = 20`, results flattened in batch
order (`asyncio.gather` preserves task order). -/
def mapTargets (refs : List ScannedRef)
    (oracle : List ScannedRef → Except String (List MappedRef)) : List MappedRef :=
  ((chunkP 19 refs).map (processMapperBatch oracle)).flatten

/-! ### Judge (`_judge_references`, reference_profiler.py 1112-1261) -/

/-- The `validation` sub-object of one item of the Judge oracle's
`validated_references` answer; `none` = key absent. -/
structure JudgeVerdictR where
  is_valid : Option Bool := none
  reason : Option String := none
  is_self_reference : Option Bool := none
deriving DecidableEq, Repr

/-- The dict built per judged reference (reference_profiler.py 1211-1226
and the error path 1238-1251). -/
structure JudgedRef where
  source_id : String
  source_header : String
  source_verbatim : String
  target_id : Option String
  mapper_verdict : String
  judge_verdict : String
  reasoning : String
  is_valid : Bool
  is_self_reference : Bool
deriving DecidableEq, Repr

/-- The success path of `judge_batch`: `zip(batch, validated_list)` merges
each input ref with the oracle verdict at the same position (`zip` stops at
the shorter list). -/
def judgeMergeBatch (batch : List MappedRef) (vs : List JudgeVerdictR) : List JudgedRef :=
  (batch.zip vs).map (fun rv =>
    let ref := rv.1
    let isValid := rv.2.is_valid.getD false
    let jreason := (rv.2.reason.getD "")
    { source_id := ref.source_id
      source_header := ref.source_header
      source_verbatim := ref.source_verbatim
      target_id := ref.target_id
      mapper_verdict := if ref.is_valid then "ACCEPT" else "REJECT"
      judge_verdict := if isValid then "ACCEPT" else "REJECT"
      reasoning := if jreason == "" then ref.justification else jreason
      is_valid := isValid
      is_self_reference := rv.2.is_self_reference.getD false })

/-- The `except` branch of `judge_batch`: every item of the batch is kept,
downgraded to `judge_verdict="ERROR"`, `is_valid=False`, with
`reasoning = f"Judge failed: {str(e)[:50]}"`. -/
def judgeFailBatch (batch : List MappedRef) (e : String) : List JudgedRef :=
  batch.map (fun ref =>
    { source_id := ref.source_id
      source_header := ref.source_header
      source_verbatim := ref.source_verbatim
      target_id := ref.target_id
      mapper_verdict := if ref.is_valid then "ACCEPT" else "REJECT"
      judge_verdict := "ERROR"
      reasoning := "Judge failed: " ++ strTake e 50
      is_valid := false
      is_self_reference := false })

/-- The Judge stage on the entire Mapper output: batches of
`JUDGE_BATCH_SIZE = 3`, each batch merged with its oracle answer or
downgraded on failure, flattened in batch order. -/
def judgeStage (refs : List MappedRef)
    (oracle : List MappedRef → Except String (List JudgeVerdictR)) : List JudgedRef :=
  ((chunkP 2 refs).map (fun b =>
    match oracle b with
    | .ok vs => judgeMergeBatch b vs
    | .error e => judgeFailBatch b e)).flatten

/-! ### InputPreparer (`_prepare_inputs_v7`, reference_profiler.py 780-830) -/

/-- A raw document section as consumed by `_prepare_inputs_v7`
(`section.get("id", "")` etc.; the fields hold the looked-up values). -/
structure Section where
  id : String
  type : String
  header : String
  text : String
deriving DecidableEq, Repr

/-- A lexicon entry (`{"id":…, "header":…, "type":…}`). -/
structure LexEntry where
  id : String
  header : String
  type : String
deriving DecidableEq, Repr

structure PreparedInputs where
  source_documents : List Section
  lexicon : List LexEntry
  section_index : List (String × SectionEntry)
  info_section_ids : List String
deriving DecidableEq, Repr

/-- Python `dict[k] = v`: replace in place if the key exists, else append. -/
def dictSet (d : List (String × SectionEntry)) (k : String) (v : SectionEntry) :
    List (String × SectionEntry) :=
  if d.any (fun p => p.1 == k) then d.map (fun p => if p.1 == k then (p.1, v) else p)
  else d ++ [(k, v)]

/-- Python `set.add` (insertion-ordered model of the set). -/
def setAdd (s : List String) (x : String) : List String :=
  if s.contains x then s else s ++ [x]

/-- One iteration of the `for section in doc_payload` loop. -/
def prepStep (st : List (String × SectionEntry) × List LexEntry × List String)
    (sec : Section) : List (String × SectionEntry) × List LexEntry × List String :=
  (dictSet st.1 sec.id ⟨sec.id, sec.header, sec.text, sec.type⟩,
   st.2.1 ++ [⟨sec.id, sec.header, sec.type⟩],
   if sec.type == "INFO" || sec.type == "SKIP" then setAdd st.2.2 sec.id else st.2.2)

/-- Embeds `_prepare_inputs_v7`: the full payload is kept as `source_documents`
(scanned by `_scan_batches`), every section enters the `lexicon`, and
`info_section_ids` collects the ids of `INFO` and `SKIP` sections. -/
def prepareInputsV7 (payload : List Section) : PreparedInputs :=
  let st := payload.foldl prepStep ([], [], [])
  { source_documents := payload
    lexicon := st.2.1
    section_index := st.1
    info_section_ids := st.2.2 }

/-- The `target_sections` computed inside `_map_targets`
(reference_profiler.py 988-993): section-index entries whose id is not in
`info_section_ids`. -/
def mapperTargetSections (inputs : PreparedInputs) : List SectionEntry :=
  (inputs.section_index.filter (fun p => !(inputs.info_section_ids.contains p.1))).map (·.2)

/-- Lexicographic comparison of strings by their character lists.
Modelled from the spec: the "deterministic sort (e.g., by `source_id`)" the
OutputFormatter is claimed to impose; the code has no sorting step, so the
order relation itself is taken from the spec's words. -/
def charsLe : List Char → List Char → Bool
  | [], _ => true
  | _ :: _, [] => false
  | a :: as, b :: bs => if a < b then true else if b < a then false else charsLe as bs

/-- Modelled from the spec: "the returned reference_map is in sorted order
(by source_id)". -/
def specSortedBySourceId : List String → Bool
  | [] => true
  | [_] => true
  | a :: b :: rest => charsLe a.data b.data && specSortedBySourceId (b :: rest)

end Coma

namespace Coma

/-! ### Helper lemmas: string truthiness -/

theorem strFalsy_eq_false {v : Option String} (h : strFalsy v = false) :
    ∃ s, v = some s ∧ s ≠ "" := by
  cases v with
  | none => simp [strFalsy] at h
  | some s =>
    refine ⟨s, rfl, ?_⟩
    simpa [strFalsy] using h

theorem strFalsy_some {s : String} (h : s ≠ "") : strFalsy (some s) = false := by
  simpa [strFalsy] using h

theorem getStr_some (s d : String) : getStr (some s) d = s := rfl

theorem getStr_none (d : String) : getStr none d = d := rfl

theorem any_const_false (l : List α) : l.any (fun _ => false) = false := by
  simp

/-! ### Helper lemmas: OutputFormatter -/

theorem formatOutputV7_foldl (frs : List FinalRef) (idx : List (String × SectionEntry)) :
    ∀ acc : List OutRef,
      frs.foldl
        (fun acc ref =>
          if ref.system_verdict == "REJECT" then acc else acc ++ [reshape idx ref]) acc
        = acc ++ (frs.filter (fun r => !(r.system_verdict == "REJECT"))).map (reshape idx) := by
  induction frs with
  | nil => intro acc; simp
  | cons r rs ih =>
    intro acc
    rw [List.foldl_cons, List.filter_cons]
    by_cases h : r.system_verdict = "REJECT"
    · have hb : (r.system_verdict == "REJECT") = true := by simpa using h
      rw [hb]
      simp only [if_true, Bool.not_true, Bool.false_eq_true, if_false]
      exact ih acc
    · have hb : (r.system_verdict == "REJECT") = false := beq_eq_false_iff_ne.mpr h
      rw [hb]
      simp only [Bool.false_eq_true, if_false, Bool.not_false, if_true]
      rw [ih (acc ++ [reshape idx r])]
      simp [List.append_assoc]

/-- Lemma: `_format_output_v7` keeps, in input order, exactly the final refs whose
`system_verdict` is not `"REJECT"`. -/
theorem formatOutputV7_eq (frs : List FinalRef) (idx : List (String × SectionEntry)) :
    formatOutputV7 frs idx
      = (frs.filter (fun r => !(r.system_verdict == "REJECT"))).map (reshape idx) := by
  unfold formatOutputV7
  simpa using formatOutputV7_foldl frs idx []

theorem mem_formatOutputV7 {frs : List FinalRef} {idx : List (String × SectionEntry)}
    {o : OutRef} :
    o ∈ formatOutputV7 frs idx
      ↔ ∃ fr ∈ frs, fr.system_verdict ≠ "REJECT" ∧ o = reshape idx fr := by
  rw [formatOutputV7_eq]
  simp only [List.mem_map, List.mem_filter, Bool.not_eq_true', beq_eq_false_iff_ne]
  constructor
  · rintro ⟨fr, ⟨hm, hne⟩, rfl⟩
    exact ⟨fr, hm, hne, rfl⟩
  · rintro ⟨fr, hm, hne, rfl⟩
    exact ⟨fr, ⟨hm, hne⟩, rfl⟩

/-! ### Helper lemmas: ProtocolValidator step and fold -/

theorem pvStep_skip {ref : InRec} (st : PVState) (h : strFalsy ref.source_id = true) :
    pvStep st ref = st := by
  simp [pvStep, h]

theorem pvStep_out_append (st : PVState) (ref : InRec) :
    ∃ tl, (pvStep st ref).out = st.out ++ tl := by
  unfold pvStep
  split
  · exact ⟨[], (List.append_nil _).symm⟩
  · exact ⟨_, rfl⟩

theorem mem_ite_append {c : Prop} [Decidable c] {s l : List α} {p : α} (h : p ∈ s) :
    p ∈ (if c then s ++ l else s) := by
  split
  · exact List.mem_append_left _ h
  · exact h

theorem pvStep_seen_mono (st : PVState) (ref : InRec) {p : String × String}
    (h : p ∈ st.seen) : p ∈ (pvStep st ref).seen := by
  unfold pvStep
  split
  · exact h
  · exact mem_ite_append h

theorem pv_foldl_out_append (l : List InRec) :
    ∀ st : PVState, ∃ tl, (l.foldl pvStep st).out = st.out ++ tl := by
  induction l with
  | nil => exact fun st => ⟨[], by simp⟩
  | cons r rs ih =>
    intro st
    obtain ⟨t1, h1⟩ := pvStep_out_append st r
    obtain ⟨t2, h2⟩ := ih (pvStep st r)
    exact ⟨t1 ++ t2, by rw [List.foldl_cons, h2, h1, List.append_assoc]⟩

theorem pv_foldl_seen_mono (l : List InRec) :
    ∀ (st : PVState) (p : String × String), p ∈ st.seen → p ∈ (l.foldl pvStep st).seen := by
  induction l with
  | nil => exact fun st p h => h
  | cons r rs ih =>
    intro st p h
    exact ih (pvStep st r) p (pvStep_seen_mono st r h)

theorem pvStep_emit (st : PVState) (ref : InRec) (h : strFalsy ref.source_id = false) :
    pvStep st ref = ⟨pvSeenNext st ref, st.out ++ [pvFinalRef st ref]⟩ := by
  simp [pvStep, h]

theorem pvSid_eq {ref : InRec} {s : String} (h : ref.source_id = some s) : pvSid ref = s := by
  simp [pvSid, h, getStr]

theorem pvTid_eq {ref : InRec} {t : String} (h : ref.target_id = some t) (ht : t ≠ "") :
    pvTid ref = t := by
  simp [pvTid, h, strFalsy_some ht, getStr]

theorem pvTid_ne_empty (ref : InRec) : pvTid ref ≠ "" := by
  unfold pvTid
  split
  · intro h; exact absurd h (by decide)
  next hc =>
    obtain ⟨t, ht, ht'⟩ := strFalsy_eq_false (by simpa using hc)
    rw [ht]
    exact ht'

/-! ### The shape invariant of every emitted final ref -/

/-- Properties that hold of every record `_protocol_validate` emits:
non-empty ids, self-reference flag equal to literal id equality, the
constant `target_header`/`target_type` fillers, and `system_verdict`
always `"ACCEPT"`. -/
def GoodF (f : FinalRef) : Prop :=
  f.source_id ≠ "" ∧ f.target_id ≠ "" ∧
  f.is_self_reference = (f.source_id == f.target_id) ∧
  f.target_header = "" ∧ f.target_type = "UNKNOWN" ∧ f.system_verdict = "ACCEPT"

theorem goodF_pvFinalRef (st : PVState) (ref : InRec)
    (h : strFalsy ref.source_id = false) : GoodF (pvFinalRef st ref) := by
  obtain ⟨s, hs, hs'⟩ := strFalsy_eq_false h
  refine ⟨?_, pvTid_ne_empty ref, rfl, rfl, rfl, rfl⟩
  show pvSid ref ≠ ""
  rw [pvSid_eq hs]
  exact hs'

theorem pvStep_good (st : PVState) (ref : InRec) (hst : ∀ f ∈ st.out, GoodF f) :
    ∀ f ∈ (pvStep st ref).out, GoodF f := by
  unfold pvStep
  split
  · exact hst
  next h =>
    intro f hf
    rcases List.mem_append.mp hf with hm | hm
    · exact hst f hm
    · rw [List.mem_singleton.mp hm]
      exact goodF_pvFinalRef st ref (by simpa using h)

theorem pv_foldl_good (l : List InRec) :
    ∀ st : PVState, (∀ f ∈ st.out, GoodF f) → ∀ f ∈ (l.foldl pvStep st).out, GoodF f := by
  induction l with
  | nil => exact fun st h => h
  | cons r rs ih =>
    intro st h
    exact ih (pvStep st r) (pvStep_good st r h)

/-- Every record emitted by `_protocol_validate` satisfies `GoodF`. -/
theorem protocolValidate_good (refs : List InRec) :
    ∀ f ∈ protocolValidate refs, GoodF f :=
  pv_foldl_good refs ⟨[], []⟩ (by intro f hf; cases hf)

/-! ### Output cardinality -/

theorem pv_foldl_length (l : List InRec) :
    ∀ st : PVState,
      ((l.foldl pvStep st).out).length
        = st.out.length + (l.filter (fun r => !strFalsy r.source_id)).length := by
  induction l with
  | nil => intro st; simp
  | cons r rs ih =>
    intro st
    rw [List.foldl_cons, ih, List.filter_cons]
    by_cases h : strFalsy r.source_id
    · rw [pvStep_skip st h]
      simp [h]
    · have h' : strFalsy r.source_id = false := by simpa using h
      rw [pvStep_emit st r h']
      simp [h']
      omega

/-- Lemma: `_protocol_validate` keeps exactly the records with a truthy
`source_id` (and drops nothing else). -/
theorem protocolValidate_length (refs : List InRec) :
    (protocolValidate refs).length
      = (refs.filter (fun r => !strFalsy r.source_id)).length := by
  unfold protocolValidate
  rw [pv_foldl_length refs ⟨[], []⟩]
  simp

/-! ### The UNKNOWN-target coercion invariant -/

/-- If a record reaches the output with target `"UNKNOWN"` although its
input target was not the literal string `"UNKNOWN"`, the coercion branch
ran: the judge verdict was forced to `REJECT` and a reasoning is present. -/
theorem pvFinalRef_unknown (st : PVState) (ref : InRec)
    (href : ref.target_id ≠ some "UNKNOWN")
    (htid : (pvFinalRef st ref).target_id = "UNKNOWN") :
    (pvFinalRef st ref).judge_verdict = "REJECT" ∧ (pvFinalRef st ref).reasoning ≠ "" := by
  by_cases hc : strFalsy ref.target_id
  · constructor
    · show pvJv ref = "REJECT"
      simp [pvJv, hc]
    · show pvReasoning ref ≠ ""
      unfold pvReasoning
      rw [if_pos hc]
      split
      · intro h; exact absurd h (by decide)
      next hr =>
        obtain ⟨r, hr1, hr2⟩ := strFalsy_eq_false (by simpa using hr)
        rw [hr1]
        exact hr2
  · exfalso
    obtain ⟨t, ht, ht'⟩ := strFalsy_eq_false (by simpa using hc)
    have heq : pvTid ref = t := pvTid_eq ht ht'
    have h1 : pvTid ref = "UNKNOWN" := htid
    rw [heq] at h1
    exact href (h1 ▸ ht)

theorem pvStep_unknown (st : PVState) (ref : InRec)
    (href : ref.target_id ≠ some "UNKNOWN")
    (hst : ∀ f ∈ st.out, f.target_id = "UNKNOWN" →
      f.judge_verdict = "REJECT" ∧ f.reasoning ≠ "") :
    ∀ f ∈ (pvStep st ref).out, f.target_id = "UNKNOWN" →
      f.judge_verdict = "REJECT" ∧ f.reasoning ≠ "" := by
  unfold pvStep
  split
  · exact hst
  · intro f hf
    rcases List.mem_append.mp hf with hm | hm
    · exact hst f hm
    · rw [List.mem_singleton.mp hm]
      exact pvFinalRef_unknown st ref href

theorem pv_foldl_unknown (l : List InRec) :
    ∀ st : PVState,
      (∀ ref ∈ l, ref.target_id ≠ some "UNKNOWN") →
      (∀ f ∈ st.out, f.target_id = "UNKNOWN" →
        f.judge_verdict = "REJECT" ∧ f.reasoning ≠ "") →
      ∀ f ∈ (l.foldl pvStep st).out, f.target_id = "UNKNOWN" →
        f.judge_verdict = "REJECT" ∧ f.reasoning ≠ "" := by
  induction l with
  | nil => exact fun st _ h => h
  | cons r rs ih =>
    intro st hl h
    exact ih (pvStep st r) (fun ref hm => hl ref (List.mem_cons_of_mem r hm))
      (pvStep_unknown st r (hl r (List.mem_cons_self r rs)) h)

/-! ### The duplicate-marking step -/

/-- Processing a record whose `(source_id, target_id)` pair is already in
`seen_pairs`, when some previously emitted record with the same pair has a
non-empty normalized verbatim containing (or contained in) the current
record's non-empty normalized verbatim: the emitted record is flagged
`is_duplicate`, yet its `system_verdict` is still `"ACCEPT"`. -/
theorem pvStep_dup (st : PVState) (ref : InRec) {s t : String}
    (hs : ref.source_id = some s) (hs' : s ≠ "")
    (ht : ref.target_id = some t) (ht' : t ≠ "") (htu : t ≠ "UNKNOWN")
    (hseen : (s, t) ∈ st.seen)
    {prev : FinalRef} (hprev : prev ∈ st.out)
    (hps : prev.source_id = s) (hpt : prev.target_id = t)
    (hpv : pyNorm prev.source_context ≠ "")
    (hcv : pvCur ref ≠ "")
    (hsub : (isSubstrOf (pvCur ref) (pyNorm prev.source_context)
             || isSubstrOf (pyNorm prev.source_context) (pvCur ref)) = true) :
    (pvStep st ref).out = st.out ++ [pvFinalRef st ref] ∧
    (pvFinalRef st ref).source_id = s ∧ (pvFinalRef st ref).target_id = t ∧
    (pvFinalRef st ref).source_context = getStr ref.source_verbatim "" ∧
    (pvFinalRef st ref).is_duplicate = true ∧
    (pvFinalRef st ref).system_verdict = "ACCEPT" := by
  have hsf : strFalsy ref.source_id = false := by rw [hs]; exact strFalsy_some hs'
  have hsid : pvSid ref = s := pvSid_eq hs
  have htid : pvTid ref = t := pvTid_eq ht ht'
  refine ⟨by rw [pvStep_emit st ref hsf], hsid, htid, rfl, ?_, rfl⟩
  show pvIsDup st (pvSid ref) (pvTid ref) (pvCur ref) = true
  rw [hsid, htid]
  have hcond : (t != "UNKNOWN" && st.seen.contains (s, t)) = true := by
    simp only [Bool.and_eq_true, bne_iff_ne]
    exact ⟨htu, List.elem_eq_true_of_mem hseen⟩
  unfold pvIsDup
  rw [hcond, if_pos rfl]
  apply List.any_eq_true.mpr
  refine ⟨prev, hprev, ?_⟩
  unfold pvDupPred
  rw [hps, hpt]
  simp only [beq_self_eq_true, Bool.true_and, Bool.and_eq_true, bne_iff_ne]
  exact ⟨⟨hcv, hpv⟩, hsub⟩

/-! ### Re-running the validator on its own output -/

/-- What one re-run pass does to an already-validated record: the
`source_context` is blanked (the validator reads `source_verbatim`, a key
the output dict does not carry) and `is_duplicate` is reset to `false`
(the blank verbatim can never pass the overlap test). -/
def rerunBlank (f : FinalRef) : FinalRef :=
  { f with source_context := "", is_duplicate := false }

theorem pyNorm_empty : pyNorm "" = "" := by decide

theorem pvStep_rerun (st : PVState) (f : FinalRef) (hf : GoodF f) :
    (pvStep st (finalToIn f)).out = st.out ++ [rerunBlank f] := by
  obtain ⟨h1, h2, h3, h4, h5, h6⟩ := hf
  have hsf : strFalsy (finalToIn f).source_id = false := strFalsy_some h1
  rw [pvStep_emit st _ hsf]
  have hfr : pvFinalRef st (finalToIn f) = rerunBlank f := by
    have hcur : pvCur (finalToIn f) = "" := pyNorm_empty
    unfold pvFinalRef rerunBlank
    cases f with
    | mk a b c d e g h i j k l m =>
      simp only [finalToIn] at *
      simp only [pvSid, pvTid, pvJv, pvReasoning, pvIsDup, getStr, Option.getD,
        strFalsy_some h2, if_false, Bool.false_eq_true] at *
      simp only [hcur, pvDupPred, bne_self_eq_false, Bool.false_and, Bool.and_false,
        any_const_false, ite_self]
      simp [h3, h4, h5, h6]
      intro _ _ x _
      simp [pvDupPred]
  rw [hfr]

theorem pv_foldl_rerun (l : List FinalRef) :
    ∀ st : PVState, (∀ f ∈ l, GoodF f) →
      ((l.map finalToIn).foldl pvStep st).out = st.out ++ l.map rerunBlank := by
  induction l with
  | nil => intro st _; simp
  | cons f fs ih =>
    intro st hl
    rw [List.map_cons, List.foldl_cons,
      ih (pvStep st (finalToIn f)) (fun g hg => hl g (List.mem_cons_of_mem f hg)),
      pvStep_rerun st f (hl f (List.mem_cons_self f fs))]
    simp

/-! ### Batching lemmas -/

theorem chunkP_flatten (n : Nat) (l : List α) : (chunkP n l).flatten = l := by
  cases l with
  | nil => simp [chunkP]
  | cons x xs =>
    have ih := chunkP_flatten n (xs.drop n)
    simp only [chunkP, List.flatten_cons, ih]
    simp [List.take_append_drop]
termination_by l.length
decreasing_by
  simp only [List.length_drop, List.length_cons]
  omega

theorem chunkP_eq_single {n : Nat} {x : α} {xs : List α} (h : xs.length ≤ n) :
    chunkP n (x :: xs) = [x :: xs] := by
  simp only [chunkP]
  rw [List.take_of_length_le h, List.drop_eq_nil_of_le h]
  simp [chunkP]

/-- Splitting a flattened per-batch map around one particular batch. -/
theorem flatten_map_of_mem {L : List (List α)} {b : List α} (f : List α → List β)
    (h : b ∈ L) : ∃ pre post, (L.map f).flatten = pre ++ f b ++ post := by
  obtain ⟨s, t, rfl⟩ := List.append_of_mem h
  exact ⟨(s.map f).flatten, (t.map f).flatten, by
    simp [List.map_append, List.flatten_append, List.append_assoc]⟩

/-! ### Judge-stage lemmas -/

/-- Identity of a judged item: the Mapper data it carries. -/
def judgedCore (j : JudgedRef) : String × String × String × Option String :=
  (j.source_id, j.source_header, j.source_verbatim, j.target_id)

def mappedCore (m : MappedRef) : String × String × String × Option String :=
  (m.source_id, m.source_header, m.source_verbatim, m.target_id)

theorem judgeMergeBatch_core (b : List MappedRef) (vs : List JudgeVerdictR)
    (h : b.length ≤ vs.length) :
    (judgeMergeBatch b vs).map judgedCore = b.map mappedCore := by
  unfold judgeMergeBatch
  rw [List.map_map]
  calc (b.zip vs).map _ = ((b.zip vs).map Prod.fst).map mappedCore := by
        rw [List.map_map]; rfl
    _ = b.map mappedCore := by rw [List.map_fst_zip b vs h]

/-- One Judge batch, as executed inside `judgeStage`. -/
def judgeBatchRun (oracle : List MappedRef → Except String (List JudgeVerdictR))
    (b : List MappedRef) : List JudgedRef :=
  match oracle b with
  | .ok vs => judgeMergeBatch b vs
  | .error e => judgeFailBatch b e

theorem judgeStage_eq (refs : List MappedRef)
    (oracle : List MappedRef → Except String (List JudgeVerdictR)) :
    judgeStage refs oracle = ((chunkP 2 refs).map (judgeBatchRun oracle)).flatten := rfl

theorem judgeBatchRun_core (oracle : List MappedRef → Except String (List JudgeVerdictR))
    (b : List MappedRef)
    (h : ∀ vs, oracle b = .ok vs → b.length ≤ vs.length) :
    (judgeBatchRun oracle b).map judgedCore = b.map mappedCore := by
  unfold judgeBatchRun
  cases ho : oracle b with
  | ok vs => exact judgeMergeBatch_core b vs (h vs ho)
  | error e =>
    unfold judgeFailBatch
    rw [List.map_map]
    rfl

/-- The full Judge stage preserves every item's Mapper data, in order,
provided each successful oracle answer carries at least as many verdict
objects as the batch has items. -/
theorem judgeStage_core (refs : List MappedRef)
    (oracle : List MappedRef → Except String (List JudgeVerdictR))
    (h : ∀ b ∈ chunkP 2 refs, ∀ vs, oracle b = .ok vs → b.length ≤ vs.length) :
    (judgeStage refs oracle).map judgedCore = refs.map mappedCore := by
  rw [judgeStage_eq]
  calc ((chunkP 2 refs).map (judgeBatchRun oracle)).flatten.map judgedCore
      = (((chunkP 2 refs).map (judgeBatchRun oracle)).map (List.map judgedCore)).flatten := by
        rw [List.map_flatten]
    _ = ((chunkP 2 refs).map (fun b => (judgeBatchRun oracle b).map judgedCore)).flatten := by
        rw [List.map_map]; rfl
    _ = ((chunkP 2 refs).map (List.map mappedCore)).flatten := by
        congr 1
        exact List.map_congr_left (fun b hb => judgeBatchRun_core oracle b (h b hb))
    _ = (chunkP 2 refs).flatten.map mappedCore := (List.map_flatten ..).symm
    _ = refs.map mappedCore := by rw [chunkP_flatten]

/-! ### Mapper-stage lemmas -/

/-- One Mapper batch, as executed inside `mapTargets`. -/
theorem mapTargets_eq (refs : List ScannedRef)
    (oracle : List ScannedRef → Except String (List MappedRef)) :
    mapTargets refs oracle = ((chunkP 19 refs).map (processMapperBatch oracle)).flatten := rfl

theorem processMapperBatch_error
    (oracle : List ScannedRef → Except String (List MappedRef))
    {b : List ScannedRef} {e : String} (he : oracle b = .error e) :
    processMapperBatch oracle b = mapperFailBatch b e := by
  simp [processMapperBatch, he]

/-! ### InputPreparer lemmas -/

/-- Marker used by `_prepare_inputs_v7` for the "filtered" sections: `INFO`
and `SKIP` (note: not `HEADER`). -/
def isInfoSkip (s : Section) : Bool := s.type == "INFO" || s.type == "SKIP"

theorem prepFold_char (tail : List Section) :
    ∀ (accIdx : List (String × SectionEntry)) (accLex : List LexEntry) (accInfo : List String),
      (∀ s ∈ tail, ∀ p ∈ accIdx, p.1 ≠ s.id) →
      (∀ s ∈ tail, s.id ∉ accInfo) →
      ((tail.map (·.id)).Nodup) →
      tail.foldl prepStep (accIdx, accLex, accInfo)
        = (accIdx ++ tail.map (fun s => (s.id, ⟨s.id, s.header, s.text, s.type⟩)),
           accLex ++ tail.map (fun s => ⟨s.id, s.header, s.type⟩),
           accInfo ++ (tail.filter isInfoSkip).map (·.id)) := by
  induction tail with
  | nil => intro accIdx accLex accInfo _ _ _; simp
  | cons s rest ih =>
    intro accIdx accLex accInfo hdisj hinfo hnd
    have hndid : s.id ∉ rest.map (·.id) ∧ (rest.map (·.id)).Nodup := by
      simpa using hnd
    have hstep : prepStep (accIdx, accLex, accInfo) s
        = (accIdx ++ [(s.id, ⟨s.id, s.header, s.text, s.type⟩)],
           accLex ++ [⟨s.id, s.header, s.type⟩],
           if isInfoSkip s then accInfo ++ [s.id] else accInfo) := by
      unfold prepStep dictSet setAdd
      have hany : accIdx.any (fun p => p.1 == s.id) = false := by
        rw [List.any_eq_false]
        intro p hp
        simpa using hdisj s (List.mem_cons_self s rest) p hp
      rw [hany]
      have hcont : accInfo.contains s.id = false := by
        by_cases hc : accInfo.contains s.id = true
        · exact absurd (List.mem_of_elem_eq_true hc)
            (hinfo s (List.mem_cons_self s rest))
        · simpa using hc
      simp only [Bool.false_eq_true, if_false, hcont, isInfoSkip]
    rw [List.foldl_cons, hstep]
    by_cases hty : isInfoSkip s
    · rw [if_pos hty]
      rw [ih _ _ _
        (fun s' hs' p hp => by
          rcases List.mem_append.mp hp with hm | hm
          · exact hdisj s' (List.mem_cons_of_mem s hs') p hm
          · rw [List.mem_singleton.mp hm]
            intro hps
            exact hndid.1 (by
              rw [show s.id = s'.id from hps]
              exact List.mem_map_of_mem (·.id) hs'))
        (fun s' hs' hm => by
          rcases List.mem_append.mp hm with hm' | hm'
          · exact hinfo s' (List.mem_cons_of_mem s hs') hm'
          · exact hndid.1 ((List.mem_singleton.mp hm') ▸ List.mem_map_of_mem (·.id) hs'))
        hndid.2]
      rw [List.filter_cons, if_pos hty]
      simp [List.append_assoc]
    · rw [if_neg hty]
      rw [ih _ _ _
        (fun s' hs' p hp => by
          rcases List.mem_append.mp hp with hm | hm
          · exact hdisj s' (List.mem_cons_of_mem s hs') p hm
          · rw [List.mem_singleton.mp hm]
            intro hps
            exact hndid.1 (by
              rw [show s.id = s'.id from hps]
              exact List.mem_map_of_mem (·.id) hs'))
        (fun s' hs' => hinfo s' (List.mem_cons_of_mem s hs'))
        hndid.2]
      rw [List.filter_cons, if_neg hty]
      simp [List.append_assoc]

/-- Full characterization of `_prepare_inputs_v7` on a payload with
pairwise-distinct section ids: nothing is excluded from
`source_documents` or from the `lexicon`; `info_section_ids` collects
exactly the `INFO` and `SKIP` ids. -/
theorem prepareInputsV7_char (payload : List Section) (h : (payload.map (·.id)).Nodup) :
    prepareInputsV7 payload =
      { source_documents := payload
        lexicon := payload.map (fun s => ⟨s.id, s.header, s.type⟩)
        section_index := payload.map (fun s => (s.id, ⟨s.id, s.header, s.text, s.type⟩))
        info_section_ids := (payload.filter isInfoSkip).map (·.id) } := by
  unfold prepareInputsV7
  rw [prepFold_char payload [] [] []
    (fun _ _ p hp => absurd hp (List.not_mem_nil p))
    (fun s _ hm => absurd hm (List.not_mem_nil s.id)) h]
  rfl

theorem bool_eq_of_iff {a b : Bool} (h : a = true ↔ b = true) : a = b := by
  cases a <;> cases b <;> simp_all

/-- On a payload with pairwise-distinct ids, the Mapper's
`target_sections` are exactly the non-`INFO`, non-`SKIP` sections —
`HEADER` sections remain eligible targets. -/
theorem mapperTargetSections_char (payload : List Section)
    (h : (payload.map (·.id)).Nodup) :
    mapperTargetSections (prepareInputsV7 payload)
      = (payload.filter (fun s => !isInfoSkip s)).map
          (fun s => ⟨s.id, s.header, s.text, s.type⟩) := by
  rw [prepareInputsV7_char payload h]
  unfold mapperTargetSections
  have hinj := List.inj_on_of_nodup_map h
  have hpt : ∀ s ∈ payload,
      (((payload.filter isInfoSkip).map (·.id)).contains
        ((fun s : Section => (s.id, (⟨s.id, s.header, s.text, s.type⟩ : SectionEntry))) s).1)
        = isInfoSkip s := by
    intro s hs
    apply bool_eq_of_iff
    constructor
    · intro hc
      obtain ⟨s', hs', hid⟩ := List.mem_map.mp (List.mem_of_elem_eq_true hc)
      obtain ⟨hs'm, hty⟩ := List.mem_filter.mp hs'
      have : s' = s := hinj hs'm hs hid
      exact this ▸ hty
    · intro hty
      exact List.elem_eq_true_of_mem
        (List.mem_map_of_mem (·.id) (List.mem_filter.mpr ⟨hs, hty⟩))
  rw [List.filter_map]
  rw [List.filter_congr (fun s hs => by
    show (!((payload.filter isInfoSkip).map (·.id)).contains _) = (!isInfoSkip s)
    rw [hpt s hs])]
  rw [List.map_map]
  rfl

theorem pvSeenNext_mem (st : PVState) (ref : InRec) {s t : String}
    (hsid : pvSid ref = s) (htid : pvTid ref = t) (htu : t ≠ "UNKNOWN") :
    (s, t) ∈ pvSeenNext st ref := by
  unfold pvSeenNext
  rw [hsid, htid]
  by_cases hc : st.seen.contains (s, t) = true
  · rw [hc]
    simp only [Bool.not_true, Bool.and_false, Bool.false_eq_true, if_false]
    exact List.mem_of_elem_eq_true hc
  · have hc' : st.seen.contains (s, t) = false := by simpa using hc
    have hbne : (t != "UNKNOWN") = true := by simpa [bne_iff_ne] using htu
    have hcond : (t != "UNKNOWN" && !st.seen.contains (s, t)) = true := by
      rw [hc', hbne]; rfl
    simp only [hcond, if_true]
    exact List.mem_append_right _ (List.mem_singleton.mpr rfl)

/-! ## Concrete records used by counterexamples and witnesses -/

/-- Same pair `(c_1, c_2)`, earlier verbatim. -/
def exDupA : InRec :=
  { source_id := some "c_1", target_id := some "c_2",
    source_verbatim := some "Section 5.2 governs payment",
    judge_verdict := some "ACCEPT" }

/-- Same pair `(c_1, c_2)`, later verbatim containing the earlier one. -/
def exDupB : InRec :=
  { source_id := some "c_1", target_id := some "c_2",
    source_verbatim := some "Section 5.2 governs payment terms",
    judge_verdict := some "ACCEPT" }

/-- A Judge-accepted record whose `target_id` is the literal string
`"UNKNOWN"` (producible upstream: the Mapper schema accepts any non-empty
`target_id` when `is_valid` is true). -/
def exUnk : InRec :=
  { source_id := some "c_1", target_id := some "UNKNOWN",
    source_verbatim := some "see the annex", judge_verdict := some "ACCEPT" }

def exOkA : InRec :=
  { source_id := some "c_1", target_id := some "c_2",
    source_verbatim := some "see clause two", judge_verdict := some "ACCEPT" }

/-- A record with no target at all (`target_id` key absent). -/
def exNoTgt : InRec :=
  { source_id := some "c_3", source_verbatim := some "per the schedule",
    judge_verdict := some "ACCEPT" }

def exRerun : InRec :=
  { source_id := some "c_1", target_id := some "c_2",
    source_verbatim := some "see section two", judge_verdict := some "ACCEPT" }

/-- A record the Judge flagged as a self-reference (`is_self_reference=true`)
although its ids differ. -/
def exSelfJudge : InRec :=
  { source_id := some "c_1", target_id := some "c_2",
    source_verbatim := some "as stated herein", judge_verdict := some "ACCEPT",
    is_self_reference := some true }

/-- A literal self-reference (`source_id == target_id`). -/
def exSelf : InRec :=
  { source_id := some "c_5", target_id := some "c_5",
    source_verbatim := some "this clause", judge_verdict := some "ACCEPT" }

/-- The final ref the validator emits for `exSelf`. -/
def exSelfOut : FinalRef :=
  { source_id := "c_5", source_header := "", source_context := "this clause",
    target_id := "c_5", target_header := "", target_type := "UNKNOWN",
    is_self_reference := true, is_duplicate := false,
    mapper_verdict := "UNKNOWN", judge_verdict := "ACCEPT",
    system_verdict := "ACCEPT", reasoning := "" }

/-- Two accepted records arriving with `source_id`s out of order. -/
def exOrdB : InRec :=
  { source_id := some "c_2", target_id := some "c_9",
    source_verbatim := some "see section nine", judge_verdict := some "ACCEPT" }

def exOrdA : InRec :=
  { source_id := some "c_1", target_id := some "c_9",
    source_verbatim := some "see also section nine below",
    judge_verdict := some "ACCEPT" }

/-! ## C1 -/

/-- Claim C1 counterexample: For the pair `(c_1, c_2)` with the later
verbatim containing the earlier one, `_protocol_validate` sets
`is_duplicate=true` on the later record but leaves
`system_verdict="ACCEPT"` (never `REJECT`), and `_format_output_v7`
therefore keeps the duplicate in the surfaced `reference_map`: the claim
that the later record gets `system_verdict=REJECT` and is excluded is
false. -/
theorem C1_counterexample :
    ((protocolValidate [exDupA, exDupB]).map fun r => (r.is_duplicate, r.system_verdict))
        = [(false, "ACCEPT"), (true, "ACCEPT")] ∧
    ((formatOutputV7 (protocolValidate [exDupA, exDupB]) []).map
        fun r => (r.source_id, r.is_duplicate))
        = [("c_1", false), ("c_1", true)] := by
  decide

/-- Claim C1 amended: For records sharing a `(source_id, target_id)` pair
with `target_id` neither empty nor `"UNKNOWN"`, where the later record's
normalized (lowercased, stripped) verbatim is a substring of, or contains,
the earlier record's non-empty normalized verbatim, the ProtocolValidator
marks the later record `is_duplicate=true` — but its `system_verdict`
remains `"ACCEPT"`, so the OutputFormatter (which excludes exactly the
`system_verdict="REJECT"` records) still surfaces it in `reference_map`. -/
theorem protocol_duplicate_flagged_but_accepted
    (pre mid post : List InRec) (ri rj : InRec) (s t : String)
    (hsi : ri.source_id = some s) (hsj : rj.source_id = some s) (hs' : s ≠ "")
    (hti : ri.target_id = some t) (htj : rj.target_id = some t) (ht' : t ≠ "")
    (htu : t ≠ "UNKNOWN")
    (hvi : pyNorm (getStr ri.source_verbatim "") ≠ "")
    (hvj : pvCur rj ≠ "")
    (hsub : (isSubstrOf (pvCur rj) (pyNorm (getStr ri.source_verbatim "")) ||
             isSubstrOf (pyNorm (getStr ri.source_verbatim "")) (pvCur rj)) = true) :
    ∃ r ∈ protocolValidate (pre ++ ri :: mid ++ rj :: post),
      r.source_id = s ∧ r.target_id = t ∧
      r.source_context = getStr rj.source_verbatim "" ∧
      r.is_duplicate = true ∧ r.system_verdict = "ACCEPT" ∧
      ∀ idx, reshape idx r
        ∈ formatOutputV7 (protocolValidate (pre ++ ri :: mid ++ rj :: post)) idx := by
  have hsfi : strFalsy ri.source_id = false := by rw [hsi]; exact strFalsy_some hs'
  have hsidi : pvSid ri = s := pvSid_eq hsi
  have htidi : pvTid ri = t := pvTid_eq hti ht'
  have hval : protocolValidate (pre ++ ri :: mid ++ rj :: post)
      = (List.foldl pvStep
          (pvStep (List.foldl pvStep (pvStep (List.foldl pvStep ⟨[], []⟩ pre) ri) mid)
            rj) post).out := by
    unfold protocolValidate
    rw [List.foldl_append, List.foldl_cons, List.foldl_append, List.foldl_cons]
  have hst1 : pvStep (List.foldl pvStep ⟨[], []⟩ pre) ri
      = ⟨pvSeenNext (List.foldl pvStep ⟨[], []⟩ pre) ri,
         (List.foldl pvStep ⟨[], []⟩ pre).out
           ++ [pvFinalRef (List.foldl pvStep ⟨[], []⟩ pre) ri]⟩ :=
    pvStep_emit _ ri hsfi
  have hseen1 : (s, t) ∈ (pvStep (List.foldl pvStep ⟨[], []⟩ pre) ri).seen := by
    rw [hst1]
    exact pvSeenNext_mem _ ri hsidi htidi htu
  have hseen2 : (s, t)
      ∈ (List.foldl pvStep (pvStep (List.foldl pvStep ⟨[], []⟩ pre) ri) mid).seen :=
    pv_foldl_seen_mono mid _ _ hseen1
  obtain ⟨tl2, htl2⟩ := pv_foldl_out_append mid (pvStep (List.foldl pvStep ⟨[], []⟩ pre) ri)
  have hprev : pvFinalRef (List.foldl pvStep ⟨[], []⟩ pre) ri
      ∈ (List.foldl pvStep (pvStep (List.foldl pvStep ⟨[], []⟩ pre) ri) mid).out := by
    rw [htl2, hst1]
    exact List.mem_append_left _ (List.mem_append_right _ (List.mem_singleton.mpr rfl))
  obtain ⟨hd1, hd2, hd3, hd4, hd5, hd6⟩ :=
    pvStep_dup (List.foldl pvStep (pvStep (List.foldl pvStep ⟨[], []⟩ pre) ri) mid) rj
      hsj hs' htj ht' htu hseen2 hprev hsidi htidi hvi hvj hsub
  obtain ⟨tl3, htl3⟩ :=
    pv_foldl_out_append post
      (pvStep (List.foldl pvStep (pvStep (List.foldl pvStep ⟨[], []⟩ pre) ri) mid) rj)
  have hmem : pvFinalRef
        (List.foldl pvStep (pvStep (List.foldl pvStep ⟨[], []⟩ pre) ri) mid) rj
      ∈ protocolValidate (pre ++ ri :: mid ++ rj :: post) := by
    rw [hval, htl3, hd1]
    exact List.mem_append_left _ (List.mem_append_right _ (List.mem_singleton.mpr rfl))
  refine ⟨_, hmem, hd2, hd3, hd4, hd5, hd6, fun idx => ?_⟩
  exact mem_formatOutputV7.mpr ⟨_, hmem, by rw [hd6]; decide, rfl⟩

/-- Claim C1 witness: The amended duplicate rule applied to the concrete
pair of records. -/
theorem C1_witness :
    (protocolValidate [exDupA, exDupB]).any
      (fun r => r.is_duplicate && r.system_verdict == "ACCEPT") = true := by
  obtain ⟨r, hr, _, _, _, hdup, hacc, _⟩ :=
    protocol_duplicate_flagged_but_accepted [] [] [] exDupA exDupB "c_1" "c_2"
      rfl rfl (by decide) rfl rfl (by decide) (by decide)
      (by decide) (by decide) (by decide)
  exact List.any_eq_true.mpr ⟨r, hr, by rw [hdup, hacc]; decide⟩

/-! ## C2 -/

/-- Claim C2 counterexample: A record whose `target_id` is the literal
string `"UNKNOWN"` (truthy, so the coercion branch does not run) passes
through `_protocol_validate` with its `judge_verdict` untouched: the
output has `target_id="UNKNOWN"` yet `judge_verdict="ACCEPT"`, refuting
`target_id == "UNKNOWN" ⇒ judge_verdict == "REJECT"` over all producible
FinalReferences. -/
theorem C2_counterexample :
    ((protocolValidate [exUnk]).map fun r => (r.target_id, r.judge_verdict))
      = [("UNKNOWN", "ACCEPT")] := by
  decide

/-- Claim C2 amended: Provided no input record carries the literal string
`"UNKNOWN"` as its `target_id`, every output record with
`target_id="UNKNOWN"` arose from the coercion branch: its `judge_verdict`
is forced to `"REJECT"` and a non-empty reasoning string is attached; and
no record is dropped beyond those with a falsy `source_id`. -/
theorem protocol_unknown_forces_reject (refs : List InRec)
    (h : ∀ ref ∈ refs, ref.target_id ≠ some "UNKNOWN") :
    (∀ r ∈ protocolValidate refs, r.target_id = "UNKNOWN" →
      r.judge_verdict = "REJECT" ∧ r.reasoning ≠ "") ∧
    (protocolValidate refs).length
      = (refs.filter (fun r => !strFalsy r.source_id)).length := by
  refine ⟨?_, protocolValidate_length refs⟩
  exact pv_foldl_unknown refs ⟨[], []⟩ h (fun f hf => absurd hf (List.not_mem_nil f))

/-- Claim C2 witness: The amended statement applied to a concrete list with
one mapped and one target-less record: both are kept. -/
theorem C2_witness : (protocolValidate [exOkA, exNoTgt]).length = 2 := by
  have h := (protocol_unknown_forces_reject [exOkA, exNoTgt] (by decide)).2
  rw [h]
  decide

/-! ## C3 -/

/-- Claim C3 counterexample: Re-running `_protocol_validate` on its own
output is not the identity: the validator reads the `source_verbatim` key
but writes the verbatim under `source_context`, so the second run finds no
verbatim and blanks `source_context`. -/
theorem C3_counterexample :
    protocolValidate ((protocolValidate [exRerun]).map finalToIn)
        ≠ protocolValidate [exRerun] ∧
    ((protocolValidate [exRerun]).map (·.source_context)) = ["see section two"] ∧
    ((protocolValidate ((protocolValidate [exRerun]).map finalToIn)).map
        (·.source_context)) = [""] := by
  decide

/-- Claim C3 amended: Re-running the ProtocolValidator on its own output
keeps every record (same length, same position) and changes exactly two
fields per record: `source_context` becomes `""` (the output dict has no
`source_verbatim` key for the second run to read) and `is_duplicate`
resets to `false` (a blank verbatim never passes the overlap test); all
other fields are unchanged. -/
theorem protocol_validate_rerun (refs : List InRec) :
    protocolValidate ((protocolValidate refs).map finalToIn)
      = (protocolValidate refs).map rerunBlank := by
  have hg := protocolValidate_good refs
  have h := pv_foldl_rerun (protocolValidate refs) ⟨[], []⟩ hg
  simpa using h

/-! ## C9 -/

/-- Claim C9 counterexample: The Judge flagged `exSelfJudge` as a
self-reference (`is_self_reference=true` on the input dict) but its ids
differ; `_protocol_validate` recomputes the flag as `source_id ==
target_id` and discards the Judge's flag, emitting
`is_self_reference=false` — refuting "or when the Judge already flagged
it". -/
theorem C9_counterexample :
    ((protocolValidate [exSelfJudge]).map (·.is_self_reference)) = [false] := by
  decide

/-- Claim C9 amended: For every record emitted by the ProtocolValidator,
`is_self_reference` equals literal id equality `source_id == target_id`
(the Judge's flag is discarded), the flag is informational only —
`system_verdict` is always `"ACCEPT"` — and the record is never excluded
from the formatter's `reference_map`. -/
theorem protocol_self_reference_flag (refs : List InRec) (r : FinalRef)
    (hr : r ∈ protocolValidate refs) :
    r.is_self_reference = (r.source_id == r.target_id) ∧
    r.system_verdict = "ACCEPT" ∧
    ∀ idx, reshape idx r ∈ formatOutputV7 (protocolValidate refs) idx := by
  obtain ⟨_, _, h3, _, _, h6⟩ := protocolValidate_good refs r hr
  exact ⟨h3, h6, fun idx => mem_formatOutputV7.mpr ⟨r, hr, by rw [h6]; decide, rfl⟩⟩

/-- Claim C9 witness: The amended statement at the concrete self-reference
`c_5 → c_5`: its emitted record is surfaced in the reference map. -/
theorem C9_witness :
    reshape [] exSelfOut ∈ formatOutputV7 (protocolValidate [exSelf]) [] :=
  (protocol_self_reference_flag [exSelf] exSelfOut (by decide)).2.2 []

/-! ## C10 -/

/-- Claim C10 counterexample: `_format_output_v7` contains no sorting step:
with validator output arriving as `c_2` before `c_1`, the surfaced
`reference_map` is `[c_2, c_1]`, which is not sorted by `source_id`
(the sorted order would be `[c_1, c_2]`). -/
theorem C10_counterexample :
    ((formatOutputV7 (protocolValidate [exOrdB, exOrdA]) []).map (·.source_id))
        = ["c_2", "c_1"] ∧
    specSortedBySourceId
        ((formatOutputV7 (protocolValidate [exOrdB, exOrdA]) []).map (·.source_id))
        = false ∧
    specSortedBySourceId ["c_1", "c_2"] = true := by
  decide

/-- Claim C10 amended: The OutputFormatter imposes no sort: it returns the
surviving records in exactly the order of its input final list (the
`source_id` sequence of `reference_map` is the filtered input sequence,
a sublist of the input's `source_id` sequence); determinism of repeated
runs comes from the function being pure, not from sorting. -/
theorem format_output_preserves_order (frs : List FinalRef)
    (idx : List (String × SectionEntry)) :
    ((formatOutputV7 frs idx).map (·.source_id)
      = (frs.filter (fun r => !(r.system_verdict == "REJECT"))).map (·.source_id)) ∧
    ((formatOutputV7 frs idx).map (·.source_id)).Sublist (frs.map (·.source_id)) := by
  have hmap : (formatOutputV7 frs idx).map (·.source_id)
      = (frs.filter (fun r => !(r.system_verdict == "REJECT"))).map (·.source_id) := by
    rw [formatOutputV7_eq, List.map_map]
    rfl
  refine ⟨hmap, ?_⟩
  rw [hmap]
  exact List.Sublist.map _ (List.filter_sublist frs)

/-! ## C4 -/

def exJm1 : MappedRef :=
  { source_id := "c_1", source_header := "One",
    source_verbatim := "see section nine", target_id := some "c_9",
    is_valid := true, justification := "resolved target",
    mapper_verdict := "ACCEPT" }

def exJm2 : MappedRef :=
  { source_id := "c_2", source_header := "Two",
    source_verbatim := "see section nine again", target_id := some "c_9",
    is_valid := true, justification := "resolved target",
    mapper_verdict := "ACCEPT" }

/-- An oracle whose successful answer carries a single verdict object. -/
def oracleOneVerdict : List MappedRef → Except String (List JudgeVerdictR) :=
  fun _ => .ok [{ is_valid := some true, reason := some "looks correct",
                  is_self_reference := some false }]

/-- An oracle that fails every batch. -/
def oracleJudgeDown : List MappedRef → Except String (List JudgeVerdictR) :=
  fun _ => .error "LLM unavailable"

/-- Claim C4 counterexample: A successful Judge batch of two items whose
oracle answer carries only one verdict object: `zip(batch,
validated_list)` truncates, item `c_2` silently disappears from the Judge
output — refuting "every item appears exactly once … regardless of how
many verdict objects the oracle returns". -/
theorem C4_counterexample :
    ((judgeStage [exJm1, exJm2] oracleOneVerdict).map (·.source_id)) = ["c_1"] ∧
    (judgeStage [exJm1, exJm2] oracleOneVerdict).length = 1 := by
  rw [judgeStage_eq, chunkP_eq_single (by decide)]
  decide

/-- Claim C4 amended: The Judge operates on the entire Mapper output with
no pre-filtering, and every item appears exactly once with its Mapper data
retained — provided each successful oracle answer carries at least as many
verdict objects as the batch has items (when it carries fewer, `zip`
truncation drops the surplus items). -/
theorem judge_processes_entire_mapper_output (refs : List MappedRef)
    (oracle : List MappedRef → Except String (List JudgeVerdictR))
    (h : ∀ b ∈ chunkP 2 refs, ∀ vs, oracle b = .ok vs → b.length ≤ vs.length) :
    (judgeStage refs oracle).map judgedCore = refs.map mappedCore ∧
    (judgeStage refs oracle).length = refs.length := by
  have hc := judgeStage_core refs oracle h
  refine ⟨hc, ?_⟩
  have hl := congrArg List.length hc
  simpa using hl

/-- Claim C4 witness: The amended statement at a concrete two-item run in
which the oracle fails (so the sufficient-verdicts hypothesis holds
vacuously): both items survive. -/
theorem C4_witness : (judgeStage [exJm1, exJm2] oracleJudgeDown).length = 2 := by
  have h := (judge_processes_entire_mapper_output [exJm1, exJm2] oracleJudgeDown
    (fun b _ vs hvs => Except.noConfusion hvs)).2
  rw [h]
  decide

/-! ## C5 -/

def exScan1 : ScannedRef :=
  { source_id := "c_1", source_header := "One",
    source_verbatim := "see section nine" }

/-- A Mapper oracle that fails every batch. -/
def oracleMapperDown : List ScannedRef → Except String (List MappedRef) :=
  fun _ => .error "boom"

/-- Claim C5 counterexample: The placeholder synthesized for a failed
Mapper batch has justification `"Mapper failed: boom"` — capital `M` — so
the claimed form `"mapper failed: <reason>"` is not a prefix of it. -/
theorem C5_counterexample :
    ((mapTargets [exScan1] oracleMapperDown).map (·.justification))
        = ["Mapper failed: boom"] ∧
    ("mapper failed: ".data.isPrefixOf "Mapper failed: boom".data) = false := by
  constructor
  · rw [mapTargets_eq, chunkP_eq_single (by decide)]
    decide
  · decide

/-- Claim C5 amended: For every Mapper batch whose oracle call fails, the
stage output contains, in place, one synthesized `MappedReference` per
input item of that batch — same `source_id`/`source_header`/
`source_verbatim`, `is_valid=false`, `target_id=null`, and
`justification = "Mapper failed: " ++` the first 100 characters of the
reason (capital `M`). -/
theorem mapper_fail_preserves_cardinality (refs : List ScannedRef)
    (oracle : List ScannedRef → Except String (List MappedRef))
    (b : List ScannedRef) (e : String)
    (hb : b ∈ chunkP 19 refs) (he : oracle b = .error e) :
    ∃ pre post, mapTargets refs oracle = pre ++ mapperFailBatch b e ++ post ∧
      (mapperFailBatch b e).map (fun m => (m.source_id, m.source_header, m.source_verbatim))
        = b.map (fun r => (r.source_id, r.source_header, r.source_verbatim)) ∧
      ∀ m ∈ mapperFailBatch b e, m.is_valid = false ∧ m.target_id = none ∧
        m.justification = "Mapper failed: " ++ strTake e 100 := by
  obtain ⟨pre, post, hsplit⟩ := flatten_map_of_mem (processMapperBatch oracle) hb
  refine ⟨pre, post, ?_, ?_, ?_⟩
  · rw [mapTargets_eq, hsplit, processMapperBatch_error oracle he]
  · unfold mapperFailBatch
    rw [List.map_map]
    rfl
  · intro m hm
    obtain ⟨r, _, rfl⟩ := List.mem_map.mp hm
    exact ⟨rfl, rfl, rfl⟩

/-- Claim C5 witness: The amended statement at a one-item batch with a
failing oracle: the synthesized placeholder carries the item's data. -/
theorem C5_witness :
    (mapperFailBatch [exScan1] "boom").map
        (fun m => (m.source_id, m.source_header, m.source_verbatim))
      = [("c_1", "One", "see section nine")] := by
  obtain ⟨_, _, _, hcore, _⟩ :=
    mapper_fail_preserves_cardinality [exScan1] oracleMapperDown [exScan1] "boom"
      (by rw [chunkP_eq_single (by decide)]; exact List.mem_singleton.mpr rfl) rfl
  rw [hcore]
  decide

/-! ## C6 -/

/-- Claim C6 confirmed: For every Judge batch whose oracle call fails,
every item of that batch appears in the Judge output, in place, downgraded
to `judge_verdict="ERROR"` with `is_valid=false`, retaining the original
Mapper data (`source_id`, `source_header`, `source_verbatim`, `target_id`,
and the mapper verdict derived from `is_valid`); no item is dropped and
the stage completes. -/
theorem judge_fail_downgrades_batch (refs : List MappedRef)
    (oracle : List MappedRef → Except String (List JudgeVerdictR))
    (b : List MappedRef) (e : String)
    (hb : b ∈ chunkP 2 refs) (he : oracle b = .error e) :
    ∃ pre post, judgeStage refs oracle = pre ++ judgeFailBatch b e ++ post ∧
      (judgeFailBatch b e).map
          (fun j => (j.source_id, j.source_header, j.source_verbatim, j.target_id,
            j.mapper_verdict))
        = b.map (fun m => (m.source_id, m.source_header, m.source_verbatim, m.target_id,
            if m.is_valid then "ACCEPT" else "REJECT")) ∧
      ∀ j ∈ judgeFailBatch b e, j.judge_verdict = "ERROR" ∧ j.is_valid = false ∧
        j.reasoning = "Judge failed: " ++ strTake e 50 := by
  obtain ⟨pre, post, hsplit⟩ := flatten_map_of_mem (judgeBatchRun oracle) hb
  have hrun : judgeBatchRun oracle b = judgeFailBatch b e := by
    simp [judgeBatchRun, he]
  refine ⟨pre, post, ?_, ?_, ?_⟩
  · rw [judgeStage_eq, hsplit, hrun]
  · unfold judgeFailBatch
    rw [List.map_map]
    rfl
  · intro j hj
    obtain ⟨m, _, rfl⟩ := List.mem_map.mp hj
    exact ⟨rfl, rfl, rfl⟩

/-- Claim C6 witness: The downgrade at a concrete one-item batch whose
oracle call fails. -/
theorem C6_witness :
    (judgeFailBatch [exJm1] "LLM unavailable").map
        (fun j => (j.source_id, j.source_header, j.source_verbatim, j.target_id,
          j.mapper_verdict))
      = [("c_1", "One", "see section nine", some "c_9", "ACCEPT")] := by
  obtain ⟨_, _, _, hmap, _⟩ :=
    judge_fail_downgrades_batch [exJm1] oracleJudgeDown [exJm1] "LLM unavailable"
      (by rw [chunkP_eq_single (by decide)]; exact List.mem_singleton.mpr rfl) rfl
  rw [hmap]
  decide

/-! ## C7 -/

/-- A Mapper item with `target_id=""`: non-null but falsy, accepted by the
Pydantic model validator. -/
def exEmptyTarget : MappedRef :=
  { source_id := "c_1", source_header := "One",
    source_verbatim := "see the annex", target_id := some "",
    is_valid := false, justification := "no target found",
    mapper_verdict := "REJECT" }

def exValidMapped : MappedRef :=
  { source_id := "c_1", source_header := "One",
    source_verbatim := "see clause nine", target_id := some "c_9",
    is_valid := true, justification := "target resolved",
    mapper_verdict := "ACCEPT" }

/-- Claim C7 counterexample: `exEmptyTarget` passes schema validation
(`validate_target_consistency` tests Python truthiness, and `""` is
falsy), yet its `target_id` is non-null while `is_valid=false` — refuting
`is_valid == true ⇔ target_id is non-null` as stated. -/
theorem C7_counterexample :
    mappedRefValidate exEmptyTarget = some exEmptyTarget ∧
    exEmptyTarget.target_id ≠ none ∧ exEmptyTarget.is_valid = false := by
  decide

/-- Claim C7 amended: Every `MappedReference` in the pipeline — parsed from
an oracle response (hence past the Pydantic validator) or synthesized on
batch failure — satisfies `is_valid == true ⇔ target_id` is truthy
(non-null *and* non-empty). -/
theorem mapped_ref_invariant :
    (∀ m m' : MappedRef, mappedRefValidate m = some m' →
      (m'.is_valid = true ↔ strFalsy m'.target_id = false)) ∧
    (∀ (b : List ScannedRef) (e : String), ∀ m ∈ mapperFailBatch b e,
      m.is_valid = true ↔ strFalsy m.target_id = false) := by
  constructor
  · intro m m' hv
    unfold mappedRefValidate at hv
    by_cases h1 : (m.justification.length < 5 || 200 < m.justification.length) = true
    · rw [if_pos h1] at hv; cases hv
    rw [if_neg h1] at hv
    by_cases h2 : (m.is_valid && strFalsy m.target_id) = true
    · rw [if_pos h2] at hv; cases hv
    rw [if_neg h2] at hv
    by_cases h3 : (!m.is_valid && !strFalsy m.target_id) = true
    · rw [if_pos h3] at hv; cases hv
    rw [if_neg h3] at hv
    injection hv with hv'
    subst hv'
    revert h2 h3
    cases m.is_valid <;> cases strFalsy m.target_id <;> simp
  · intro b e m hm
    obtain ⟨r, _, rfl⟩ := List.mem_map.mp hm
    simp [strFalsy]

/-- The placeholder `mapperFailBatch` synthesizes for `exScan1` with
reason `"boom"`. -/
def exFailPlaceholder : MappedRef :=
  { source_id := "c_1", source_header := "One",
    source_verbatim := "see section nine", target_id := none,
    is_valid := false, justification := "Mapper failed: boom",
    mapper_verdict := "REJECT" }

/-- Claim C7 witness: The amended invariant at a concrete validated record
and a concrete synthesized placeholder. -/
theorem C7_witness :
    (exValidMapped.is_valid = true ↔ strFalsy exValidMapped.target_id = false) ∧
    (exFailPlaceholder.is_valid = true
      ↔ strFalsy exFailPlaceholder.target_id = false) :=
  ⟨mapped_ref_invariant.1 exValidMapped exValidMapped (by decide),
   mapped_ref_invariant.2 [exScan1] "boom" exFailPlaceholder (by decide)⟩

/-! ## C8 -/

def exPayload : List Section :=
  [⟨"h1", "HEADER", "Heading", "heading text"⟩,
   ⟨"s1", "SKIP", "Skip me", "skip text"⟩,
   ⟨"i1", "INFO", "Info", "info text"⟩,
   ⟨"c1", "CONTENT", "Content", "content text"⟩]

/-- Claim C8 counterexample: `_prepare_inputs_v7` keeps the `HEADER` and
`SKIP` sections in `source_documents` (everything is scanned) and in the
`lexicon`; `info_section_ids` collects `INFO` *and* `SKIP` (not `HEADER`);
and the Mapper's `target_sections` still contain the `HEADER` section —
refuting every exclusion in the claim except the `INFO`-not-a-target
half. -/
theorem C8_counterexample :
    (prepareInputsV7 exPayload).source_documents = exPayload ∧
    ((prepareInputsV7 exPayload).lexicon.map (·.id)) = ["h1", "s1", "i1", "c1"] ∧
    (prepareInputsV7 exPayload).info_section_ids = ["s1", "i1"] ∧
    ((mapperTargetSections (prepareInputsV7 exPayload)).map (·.id)) = ["h1", "c1"] := by
  decide

/-- Claim C8 amended: On a payload with pairwise-distinct section ids, the
InputPreparer excludes nothing: all sections (including `SKIP` and
`HEADER`) remain scannable source text and enter the lexicon;
`info_section_ids` collects exactly the `INFO` and `SKIP` ids; and only
the Mapper's `target_sections` filter applies, removing exactly `INFO`
and `SKIP` (so `HEADER` sections remain eligible reference targets). -/
theorem prepare_inputs_behavior (payload : List Section)
    (h : (payload.map (·.id)).Nodup) :
    (prepareInputsV7 payload).source_documents = payload ∧
    (prepareInputsV7 payload).lexicon
      = payload.map (fun s => ⟨s.id, s.header, s.type⟩) ∧
    (prepareInputsV7 payload).info_section_ids
      = (payload.filter isInfoSkip).map (·.id) ∧
    mapperTargetSections (prepareInputsV7 payload)
      = (payload.filter (fun s => !isInfoSkip s)).map
          (fun s => ⟨s.id, s.header, s.text, s.type⟩) := by
  refine ⟨?_, ?_, ?_, mapperTargetSections_char payload h⟩ <;>
    rw [prepareInputsV7_char payload h]

/-- Claim C8 witness: The amended statement at the concrete four-section
payload. -/
theorem C8_witness :
    mapperTargetSections (prepareInputsV7 exPayload)
      = (exPayload.filter (fun s => !isInfoSkip s)).map
          (fun s => ⟨s.id, s.header, s.text, s.type⟩) :=
  (prepare_inputs_behavior exPayload (by decide)).2.2.2

end Coma
